import Mathlib

/-!
Verification development for the `firmware-amp` reactive lighting core
(`src/main/src/app.cpp` and `src/main/include/models/light.h`).

The C++ core is embedded shallowly: the `App` object's fields become the
`AppState` record, and each member function becomes a Lean function from
state to state, additionally returning the ordered list of observable
`Event`s (FreeRTOS queue sends, listener notifications, renderer
construction/shutdown, task creation/deletion) that the C++ body performs.
Types declared only in headers that are not part of the repository slice
(`app.h`, the motion headers, `Color`) are modelled from the spec and marked
as such in their doc comments.
-/

namespace FirmwareAmp

/-- Modelled from the spec: `AccelerationState` is declared in the motion
headers, which are not under `src/`; the spec's data model gives
`enum{Braking, Neutral}`. -/
inductive AccelerationState
  | Braking
  | Neutral
deriving DecidableEq, Repr

/-- Modelled from the spec: `TurnState` is declared in the motion headers,
which are not under `src/`; the spec's data model gives
`enum{Center, Left, Right, Hazard}`. -/
inductive TurnState
  | Center
  | Left
  | Right
  | Hazard
deriving DecidableEq, Repr

/-- Modelled from the spec: `Orientation` is declared in the motion headers,
which are not under `src/`; the spec's data model gives
`enum{TopSideUp, Other}` (app.cpp only ever distinguishes `TopSideUp` from
the `default:` branch). -/
inductive Orientation
  | TopSideUp
  | Other
deriving DecidableEq, Repr

/-- Modelled from the spec: `LightMode` is declared in `app.h`, which is not
under `src/`. The constructor names are the labels of the `switch` in
`App::setLightMode` (app.cpp lines 188-206); the spec's data model lists the
same five modes. -/
inductive LightMode
  | RunningMode
  | TheaterChaseRainbowMode
  | TheaterChaseMode
  | RainbowMode
  | LightningMode
deriving DecidableEq, Repr

/-- The semantic domain of light commands manipulated by `app.cpp`.
The constructors are the `LightCommand` values that `app.cpp` references
(`LightsBrake` in line 123, `LightsRunning` in line 127, the turn and
orientation commands in lines 141-168, `NoCommand` in lines 237-253)
together with the remaining members declared in `light.h` lines 61-73.
Note a discrepancy recorded separately in `lightCommandNames`: the header's
enum declares `LightsBrakeNormal`/`LightsBrakeActive` and does NOT declare
the `LightsBrake`/`LightsRunning` members that `app.cpp` uses. -/
inductive LightCommand
  | NoCommand
  | LightsOff
  | LightsReset
  | LightsBrake
  | LightsRunning
  | LightsBrakeNormal
  | LightsBrakeActive
  | LightsHeadlightNormal
  | LightsHeadlightBright
  | LightsTurnCenter
  | LightsTurnLeft
  | LightsTurnRight
  | LightsTurnHazard
deriving DecidableEq, Repr

/-- The member names of `enum LightCommand` exactly as declared in
`light.h` lines 61-73, in declaration order (so `NoCommand = 0x00` is the
first entry and later members take successive values). -/
def lightCommandNames : List String :=
  ["NoCommand", "LightsOff", "LightsReset", "LightsBrakeNormal",
   "LightsBrakeActive", "LightsHeadlightNormal", "LightsHeadlightBright",
   "LightsTurnCenter", "LightsTurnLeft", "LightsTurnRight", "LightsTurnHazard"]

/-- The member list that the spec's data model asserts for `LightCommand`. -/
def specLightCommandNames : List String :=
  ["NoCommand", "LightsOff", "LightsReset", "LightsBrake", "LightsRunning",
   "LightsHeadlightNormal", "LightsHeadlightBright", "LightsTurnCenter",
   "LightsTurnLeft", "LightsTurnRight", "LightsTurnHazard"]

/-- The field names of `struct LightCommands` exactly as declared in
`light.h` lines 75-79. -/
def lightCommandsFieldNames : List String :=
  ["brakeCommand", "turnCommand", "headlightCommand"]

/-- `VehicleState` as consumed by `App::process` (app.cpp lines 82-104): the
acceleration, turn and orientation classifications. (Declared in the motion
headers, not under `src/`; the field names are those read by app.cpp.) -/
structure VehicleState where
  acceleration : AccelerationState
  turn : TurnState
  orientation : Orientation
deriving DecidableEq, Repr

/-- The notification bundle built by `App::notifyLightsChanged`
(app.cpp lines 256-261): it assigns the four fields `mode`, `brakeCommand`,
`turnCommand`, `headlightCommand`. Note a discrepancy recorded separately in
`lightCommandsFieldNames`: the `struct LightCommands` declared in `light.h`
lines 75-79 has only the three command fields and no `mode` field, while
app.cpp line 258 assigns `commands.mode`. -/
structure LightCommands where
  mode : LightMode
  brakeCommand : LightCommand
  turnCommand : LightCommand
  headlightCommand : LightCommand
deriving DecidableEq, Repr

/-- The active renderer, seen through the interface `app.cpp` uses: the
three optional outbound command queues (`renderer->brakelightQueue` etc.,
app.cpp lines 233, 241, 249). Each flag records whether the corresponding
queue pointer is non-NULL. The renderer implementations themselves
(`PatternRenderer`, `RunningRenderer`) are outside the repository slice. -/
structure Renderer where
  brakelightQueue : Bool
  turnlightQueue : Bool
  headlightQueue : Bool
deriving DecidableEq, Repr

/-- Which renderer command channel a send targets (app.cpp lines 232-254). -/
inductive Channel
  | brake
  | turn
  | headlight
deriving DecidableEq, Repr

/-- Observable actions performed by the App core, in program order:
FreeRTOS task deletion/creation, renderer shutdown/construction, the
`lightMode` store, sends into the renderer's command queues, and the
listener fan-out of one `LightCommands` bundle (`App::notifyLightsChanged`
builds one bundle and offers it to every registered listener; the bundle is
the observable payload, listener multiplicity is orthogonal). -/
inductive Event
  | taskDeleted
  | rendererShutdown
  | rendererConstructed (mode : LightMode)
  | taskSpawned
  | modeSet (mode : LightMode)
  | queueSend (ch : Channel) (c : LightCommand)
  | notify (cmds : LightCommands)
deriving DecidableEq, Repr

/-- The `App` object's fields used by the embedded member functions:
`lightMode`, the `vehicleState` snapshot, the `renderer` pointer
(`none` = NULL) and the `renderHostHandle` (`true` = non-NULL). -/
structure AppState where
  lightMode : LightMode
  vehicleState : VehicleState
  renderer : Option Renderer
  renderHostHandle : Bool
deriving DecidableEq, Repr

/-- The acceleration→command table of `App::onAccelerationStateChanged`
(app.cpp lines 121-129): `Braking → LightsBrake`; the `default:` and
`Neutral` labels share the `LightsRunning` branch. -/
def accelerationCommand : AccelerationState → LightCommand
  | .Braking => .LightsBrake
  | .Neutral => .LightsRunning

/-- The turn→command table of `App::onTurnStateChanged`
(app.cpp lines 139-153): `Left/Right/Hazard` map to the matching turn
command; `Center` and `default:` share the `LightsTurnCenter` branch. -/
def turnLightCommand : TurnState → LightCommand
  | .Left => .LightsTurnLeft
  | .Right => .LightsTurnRight
  | .Hazard => .LightsTurnHazard
  | .Center => .LightsTurnCenter

/-- The orientation→command table of `App::onOrientationChanged`
(app.cpp lines 163-170): `TopSideUp → LightsOff`; any other orientation
takes the `default:` branch to `LightsReset`. -/
def orientationCommand : Orientation → LightCommand
  | .TopSideUp => .LightsOff
  | .Other => .LightsReset

/-- `App::notifyLightsChanged` (app.cpp lines 256-267): builds one bundle
with `mode` set to the current `lightMode` and the three given command
fields, and offers it (non-blocking) to every registered listener. The
bundle is emitted as one `Event.notify`. -/
def notifyLightsChanged (s : AppState) (brake turnC headlight : LightCommand) :
    List Event :=
  [Event.notify ⟨s.lightMode, brake, turnC, headlight⟩]

/-- `App::setBrakes` (app.cpp lines 240-246): send into the renderer's
brakelight queue when the renderer and the queue are non-NULL, then notify
listeners with only the brake field set. -/
def setBrakes (s : AppState) (command : LightCommand) : List Event :=
  (match s.renderer with
    | some r => if r.brakelightQueue then [Event.queueSend .brake command] else []
    | none => []) ++
  notifyLightsChanged s command .NoCommand .NoCommand

/-- `App::setTurnLights` (app.cpp lines 248-254). -/
def setTurnLights (s : AppState) (command : LightCommand) : List Event :=
  (match s.renderer with
    | some r => if r.turnlightQueue then [Event.queueSend .turn command] else []
    | none => []) ++
  notifyLightsChanged s .NoCommand command .NoCommand

/-- `App::setHeadlight` (app.cpp lines 232-238). -/
def setHeadlight (s : AppState) (command : LightCommand) : List Event :=
  (match s.renderer with
    | some r => if r.headlightQueue then [Event.queueSend .headlight command] else []
    | none => []) ++
  notifyLightsChanged s .NoCommand .NoCommand command

/-- `App::onAccelerationStateChanged` (app.cpp lines 116-133): the whole
body is guarded by `renderer != NULL`; inside, the mapped command goes to
`setBrakes`. -/
def onAccelerationStateChanged (s : AppState) (st : AccelerationState) :
    List Event :=
  match s.renderer with
  | none => []
  | some _ => setBrakes s (accelerationCommand st)

/-- `App::onTurnStateChanged` (app.cpp lines 135-157). -/
def onTurnStateChanged (s : AppState) (st : TurnState) : List Event :=
  match s.renderer with
  | none => []
  | some _ => setTurnLights s (turnLightCommand st)

/-- `App::onOrientationChanged` (app.cpp lines 159-176): guarded by
`renderer != NULL`; the one mapped command is sent to the turn, brake and
headlight channels in that order. -/
def onOrientationChanged (s : AppState) (st : Orientation) : List Event :=
  match s.renderer with
  | none => []
  | some _ =>
    setTurnLights s (orientationCommand st) ++
    setBrakes s (orientationCommand st) ++
    setHeadlight s (orientationCommand st)

/-- `App::setLightMode` (app.cpp lines 178-213). `construct` abstracts the
`switch` of lines 188-206 that builds the mode-appropriate renderer with
`new` (the renderer classes are outside the repository slice); `construct
mode = none` is the construction-failure outcome, modelled from the spec
(§4.2/§7: on failure the core holds no active renderer). The body, guarded
by `lightMode != mode`: if a render host task is running, delete it and shut
the old renderer down, nulling both fields (lines 180-186); then assign the
newly constructed renderer (lines 188-206); spawn the render host task
(line 208, which the source intends to record in `renderHostHandle`); store
the new mode (line 209); finally notify listeners (line 211) — modelled from
the spec: `notifyLightsChanged`'s default arguments live in `app.h`, not
under `src/`, and §4.2 specifies an all-NoCommand bundle. -/
def setLightMode (construct : LightMode → Option Renderer) (s : AppState)
    (mode : LightMode) : AppState × List Event :=
  if s.lightMode = mode then (s, [])
  else
    let teardownEvents : List Event :=
      if s.renderHostHandle then
        [Event.taskDeleted] ++
        (match s.renderer with
          | some _ => [Event.rendererShutdown]
          | none => [])
      else []
    let s1 : AppState :=
      if s.renderHostHandle then
        { s with renderer := none, renderHostHandle := false }
      else s
    let newRenderer := construct mode
    let constructionEvents : List Event :=
      match newRenderer with
      | some _ => [Event.rendererConstructed mode]
      | none => []
    let s2 : AppState :=
      { s1 with renderer := newRenderer, renderHostHandle := true,
                lightMode := mode }
    (s2,
     teardownEvents ++ constructionEvents ++
     [Event.taskSpawned, Event.modeSet mode] ++
     notifyLightsChanged s2 .NoCommand .NoCommand .NoCommand)

/-- The drain loop of `App::process` (app.cpp lines 82-86): receive from the
vehicle queue while messages are waiting, so the loop ends with the queue
empty and `state` holding the last-received entry (`none` when the queue was
empty and `newVehicleState` stays false). -/
def drainVehicle : List VehicleState → Option VehicleState
  | [] => none
  | [z] => some z
  | _ :: rest => drainVehicle rest

/-- The vehicle-state portion of `App::process` (app.cpp lines 82-104):
drain the queue keeping the last entry; if one was received, fire the three
per-field change handlers exactly when the field differs from the stored
snapshot, then overwrite the snapshot. Returns the new state, the remaining
queue contents (the loop leaves the queue empty) and the emitted events. -/
def processVehicle (s : AppState) (q : List VehicleState) :
    AppState × List VehicleState × List Event :=
  match drainVehicle q with
  | none => (s, [], [])
  | some state =>
    let ev1 := if s.vehicleState.acceleration ≠ state.acceleration then
        onAccelerationStateChanged s state.acceleration else []
    let ev2 := if s.vehicleState.turn ≠ state.turn then
        onTurnStateChanged s state.turn else []
    let ev3 := if s.vehicleState.orientation ≠ state.orientation then
        onOrientationChanged s state.orientation else []
    ({ s with vehicleState := state }, [], ev1 ++ ev2 ++ ev3)

/-- `App::process` (app.cpp lines 68-114). The single-slot
`configUpdatedQueue` and `lightModeQueue` are drained first: a pending true
config signal runs `onConfigUpdated` (lines 60-66), which re-runs
`setLightMode` with the configured default mode (`config->prefs.renderer`,
abstracted as `defaultMode` since the config type is outside the slice);
a pending mode request runs `setLightMode`. Then the vehicle-state portion
runs. The `BLE_ENABLED` service polling is outside the core slice. -/
def process (construct : LightMode → Option Renderer) (defaultMode : LightMode)
    (configQ : Option Bool) (modeQ : Option LightMode)
    (vehicleQ : List VehicleState) (s : AppState) : AppState × List Event :=
  let p1 : AppState × List Event :=
    match configQ with
    | some true => setLightMode construct s defaultMode
    | _ => (s, [])
  let p2 : AppState × List Event :=
    match modeQ with
    | some m => setLightMode construct p1.1 m
    | none => (p1.1, [])
  let p3 := processVehicle p2.1 vehicleQ
  (p3.1, p1.2 ++ p2.2 ++ p3.2.2)

/-- Modelled from the spec: the `Color` type is declared in a header outside
the repository slice; for the layer-ordering claims only distinguishability
of colors matters, so it is modelled as an RGBW quadruple. -/
structure Color where
  red : Nat
  green : Nat
  blue : Nat
  white : Nat
deriving DecidableEq, Repr

/-- `enum LightEffect` (light.h lines 43-59). -/
inductive LightEffect
  | Off
  | Static
  | Blink
  | ColorWipe
  | Breathe
  | Fade
  | Scan
  | Rainbow
  | RainbowCycle
  | ColorChase
  | TheaterChase
  | TheaterChaseRainbow
  | Twinkle
  | Sparkle
  | Alternate
deriving DecidableEq, Repr

/-- `struct LightingParameters` (light.h lines 81-89). -/
structure LightingParameters where
  region : String
  effect : LightEffect
  layer : Nat
  first : Color
  second : Color
  third : Color
  duration : Nat
deriving DecidableEq, Repr

/-- `operator<` on `LightingParameters` (light.h line 97): compares only the
`layer` fields. -/
def lpLt (lhs rhs : LightingParameters) : Bool :=
  lhs.layer < rhs.layer

/-- `operator<=` on `LightingParameters` (light.h line 99). -/
def lpLe (lhs rhs : LightingParameters) : Bool :=
  lhs.layer ≤ rhs.layer

/-- `operator==` on `LightingParameters` (light.h line 101): equal iff the
`layer` fields are equal, regardless of every other field. -/
def lpEq (lhs rhs : LightingParameters) : Bool :=
  lhs.layer == rhs.layer

/-- Insertion into a list sorted by the `operator<=` of light.h. -/
def lpInsert (x : LightingParameters) :
    List LightingParameters → List LightingParameters
  | [] => [x]
  | y :: ys => if lpLe x y then x :: y :: ys else y :: lpInsert x ys

/-- Insertion sort by the comparison operators of light.h (the sort
algorithm itself is not in the repository; the comparison is). -/
def lpSort : List LightingParameters → List LightingParameters
  | [] => []
  | x :: xs => lpInsert x (lpSort xs)

/-- Recognizes renderer-construction events. -/
def isConstructionEvent : Event → Bool
  | .rendererConstructed _ => true
  | _ => false

/-- Recognizes listener fan-out events. -/
def isNotifyEvent : Event → Bool
  | .notify _ => true
  | _ => false

/-- An event that carries output on the brake command channel: a send into
the renderer's brakelight queue, or a listener bundle whose `brakeCommand`
field is a real command (not the `NoCommand` sentinel). -/
def eventTouchesBrake : Event → Bool
  | .queueSend .brake _ => true
  | .notify b => b.brakeCommand != .NoCommand
  | _ => false

/-- An event that carries output on the turn command channel. -/
def eventTouchesTurn : Event → Bool
  | .queueSend .turn _ => true
  | .notify b => b.turnCommand != .NoCommand
  | _ => false

/-- An event that carries output on the headlight command channel. -/
def eventTouchesHeadlight : Event → Bool
  | .queueSend .headlight _ => true
  | .notify b => b.headlightCommand != .NoCommand
  | _ => false

/-- An event that carries the given command on any channel or bundle field. -/
def eventCarries (c : LightCommand) : Event → Bool
  | .queueSend _ c2 => c2 == c
  | .notify b => b.brakeCommand == c || b.turnCommand == c || b.headlightCommand == c
  | _ => false

/-- A renderer whose three command queues are all present. -/
def fullRenderer : Renderer := ⟨true, true, true⟩

/-- An orchestrator state in Running mode with an active full renderer, a
running render host task, and the given vehicle-state snapshot. -/
def appRun (vs : VehicleState) : AppState :=
  ⟨.RunningMode, vs, some fullRenderer, true⟩

/-- Vehicle state {accel: Neutral, turn: Center, orientation: TopSideUp}. -/
def vsNCT : VehicleState := ⟨.Neutral, .Center, .TopSideUp⟩

/-- Vehicle state {accel: Braking, turn: Left, orientation: TopSideUp}. -/
def vsBLT : VehicleState := ⟨.Braking, .Left, .TopSideUp⟩

/-- Vehicle state {accel: Neutral, turn: Left, orientation: TopSideUp}. -/
def vsNLT : VehicleState := ⟨.Neutral, .Left, .TopSideUp⟩

/-- Helper: `setLightMode` on the currently-active mode returns the state
unchanged and performs nothing (the `lightMode != mode` guard fails). -/
theorem setLightMode_noop (construct : LightMode → Option Renderer)
    (s : AppState) (m : LightMode) (h : s.lightMode = m) :
    setLightMode construct s m = (s, []) := by
  simp [setLightMode, h]

/-- Helper: the full shape of a `setLightMode` run on a different mode:
teardown events (when a host task runs), then the construction event (when
construction succeeds), then task spawn, mode store, and the all-NoCommand
fan-out; the resulting state carries the new mode, the construction result
and a running host task. -/
theorem setLightMode_changes (construct : LightMode → Option Renderer)
    (s : AppState) (m : LightMode) (h : s.lightMode ≠ m) :
    setLightMode construct s m =
      ({ lightMode := m, vehicleState := s.vehicleState,
         renderer := construct m, renderHostHandle := true },
       (if s.renderHostHandle then
          [Event.taskDeleted] ++
          (match s.renderer with
            | some _ => [Event.rendererShutdown]
            | none => [])
        else []) ++
       (match construct m with
         | some _ => [Event.rendererConstructed m]
         | none => []) ++
       [Event.taskSpawned, Event.modeSet m,
        Event.notify ⟨m, .NoCommand, .NoCommand, .NoCommand⟩]) := by
  cases hh : s.renderHostHandle <;>
    simp [setLightMode, h, hh, notifyLightsChanged]

/-- Claim C1: the command mapping is exhaustive and fixed. With an active
renderer (all three command queues present), an acceleration change sends
the mapped brake command to the brake channel and notifies listeners; a turn
change does the same on the turn channel; an orientation change sends the
one mapped command to the turn, brake and headlight channels simultaneously.
The tables are: Braking→LightsBrake, Neutral (the default branch)→
LightsRunning; Left→LightsTurnLeft, Right→LightsTurnRight,
Hazard→LightsTurnHazard, Center (the default branch)→LightsTurnCenter;
TopSideUp→LightsOff, any other orientation→LightsReset. -/
theorem command_mapping_exhaustive (s : AppState) (r : Renderer)
    (a : AccelerationState) (t : TurnState) (o : Orientation)
    (hr : s.renderer = some r) (hb : r.brakelightQueue = true)
    (ht : r.turnlightQueue = true) (hh : r.headlightQueue = true) :
    onAccelerationStateChanged s a =
      [.queueSend .brake (accelerationCommand a),
       .notify ⟨s.lightMode, accelerationCommand a, .NoCommand, .NoCommand⟩] ∧
    onTurnStateChanged s t =
      [.queueSend .turn (turnLightCommand t),
       .notify ⟨s.lightMode, .NoCommand, turnLightCommand t, .NoCommand⟩] ∧
    onOrientationChanged s o =
      [.queueSend .turn (orientationCommand o),
       .notify ⟨s.lightMode, .NoCommand, orientationCommand o, .NoCommand⟩,
       .queueSend .brake (orientationCommand o),
       .notify ⟨s.lightMode, orientationCommand o, .NoCommand, .NoCommand⟩,
       .queueSend .headlight (orientationCommand o),
       .notify ⟨s.lightMode, .NoCommand, .NoCommand, orientationCommand o⟩] ∧
    accelerationCommand .Braking = .LightsBrake ∧
    accelerationCommand .Neutral = .LightsRunning ∧
    turnLightCommand .Left = .LightsTurnLeft ∧
    turnLightCommand .Right = .LightsTurnRight ∧
    turnLightCommand .Hazard = .LightsTurnHazard ∧
    turnLightCommand .Center = .LightsTurnCenter ∧
    orientationCommand .TopSideUp = .LightsOff ∧
    orientationCommand .Other = .LightsReset := by
  refine ⟨?_, ?_, ?_, rfl, rfl, rfl, rfl, rfl, rfl, rfl, rfl⟩ <;>
    simp [onAccelerationStateChanged, onTurnStateChanged,
      onOrientationChanged, setBrakes, setTurnLights, setHeadlight,
      notifyLightsChanged, hr, hb, ht, hh]

/-- Witness for C1 at a concrete state: Running mode, full renderer,
inputs Neutral / Hazard / Other. -/
theorem command_mapping_exhaustive_witness :
    (appRun vsBLT).renderer = some fullRenderer ∧
    onAccelerationStateChanged (appRun vsBLT) .Neutral =
      [.queueSend .brake .LightsRunning,
       .notify ⟨.RunningMode, .LightsRunning, .NoCommand, .NoCommand⟩] ∧
    onTurnStateChanged (appRun vsBLT) .Hazard =
      [.queueSend .turn .LightsTurnHazard,
       .notify ⟨.RunningMode, .NoCommand, .LightsTurnHazard, .NoCommand⟩] ∧
    onOrientationChanged (appRun vsBLT) .Other =
      [.queueSend .turn .LightsReset,
       .notify ⟨.RunningMode, .NoCommand, .LightsReset, .NoCommand⟩,
       .queueSend .brake .LightsReset,
       .notify ⟨.RunningMode, .LightsReset, .NoCommand, .NoCommand⟩,
       .queueSend .headlight .LightsReset,
       .notify ⟨.RunningMode, .NoCommand, .NoCommand, .LightsReset⟩] := by
  have h := command_mapping_exhaustive (appRun vsBLT) fullRenderer
    .Neutral .Hazard .Other rfl rfl rfl rfl
  exact ⟨rfl, h.1, h.2.1, h.2.2.1⟩

/-- Claim C6 (code-bug evidence): the `LightCommand` enum declared in
light.h lines 61-73 does not contain the members `LightsBrake` and
`LightsRunning` that the command mapper in app.cpp lines 123/127 references;
its member list differs from the spec's claimed list (it has
`LightsBrakeNormal`/`LightsBrakeActive` in their places), while `NoCommand`
is indeed the first (zero-valued) member and the two lists have the same
length. -/
theorem lightCommand_enum_mismatch :
    lightCommandNames.contains "LightsBrake" = false ∧
    lightCommandNames.contains "LightsRunning" = false ∧
    (lightCommandNames == specLightCommandNames) = false ∧
    lightCommandNames.contains "LightsBrakeNormal" = true ∧
    lightCommandNames.contains "LightsBrakeActive" = true ∧
    lightCommandNames.head? = some "NoCommand" ∧
    lightCommandNames.length = specLightCommandNames.length := by
  decide

/-- Claim C7 (code-bug evidence): the `struct LightCommands` declared in
light.h lines 75-79 has exactly three fields and no `mode` field, yet
`App::notifyLightsChanged` (app.cpp line 258) assigns `commands.mode`; on
the app.cpp side, every bundle built by the fan-out carries the current
`lightMode` in its mode field and the three given command values (so any
field not being updated carries the NoCommand it was passed). -/
theorem lightCommands_missing_mode_field :
    lightCommandsFieldNames.contains "mode" = false ∧
    lightCommandsFieldNames.length = 3 ∧
    (∀ (s : AppState) (b t h : LightCommand),
      notifyLightsChanged s b t h =
        [Event.notify ⟨s.lightMode, b, t, h⟩]) := by
  exact ⟨by decide, by decide, fun s b t h => rfl⟩

/-- A red color sample. -/
def colorRed : Color := ⟨255, 0, 0, 0⟩

/-- A blue color sample. -/
def colorBlue : Color := ⟨0, 0, 255, 0⟩

/-- Lighting parameters on layer 1. -/
def lpLayer1 : LightingParameters := ⟨"left", .Blink, 1, colorRed, colorRed, colorRed, 100⟩

/-- Lighting parameters on layer 2. -/
def lpLayer2 : LightingParameters := ⟨"right", .Scan, 2, colorBlue, colorBlue, colorBlue, 250⟩

/-- Lighting parameters on layer 3. -/
def lpLayer3 : LightingParameters := ⟨"brake", .Static, 3, colorRed, colorBlue, colorRed, 400⟩

/-- Lighting parameters on layer 2 with different colors than `lpLayer2`. -/
def lpLayer2Red : LightingParameters := ⟨"head", .Fade, 2, colorRed, colorRed, colorRed, 999⟩

/-- Claim C8: the comparison operators on `LightingParameters` look only at
the `layer` field: `a < b` iff `a.layer < b.layer` and `a == b` iff
`a.layer == b.layer`, regardless of region, effect, colors or duration;
sorting values with layers [3, 1, 2] by this comparison yields layer order
[1, 2, 3], and two values with equal layer but different colors compare
equal. -/
theorem lightingParameters_layer_ordering :
    (∀ a b : LightingParameters, (lpLt a b = true ↔ a.layer < b.layer)) ∧
    (∀ a b : LightingParameters, (lpEq a b = true ↔ a.layer = b.layer)) ∧
    (lpSort [lpLayer3, lpLayer1, lpLayer2]).map LightingParameters.layer
      = [1, 2, 3] ∧
    lpEq lpLayer2 lpLayer2Red = true ∧
    (lpLayer2.first == lpLayer2Red.first) = false := by
  refine ⟨?_, ?_, by decide, by decide, by decide⟩
  · intro a b
    simp [lpLt]
  · intro a b
    simp [lpEq]

/-- Helper: the drain loop of `App::process` keeps exactly the last entry
of the queue. -/
theorem drainVehicle_eq_getLast? :
    ∀ q : List VehicleState, drainVehicle q = q.getLast?
  | [] => rfl
  | [_] => rfl
  | a :: b :: rest => by
    rw [show drainVehicle (a :: b :: rest) = drainVehicle (b :: rest) from rfl,
      drainVehicle_eq_getLast? (b :: rest), List.getLast?_cons_cons]

/-- Claim C2: a processing cycle with pending vehicle states drains the
channel entirely (the queue is left empty), performs the one downstream
command evaluation using only the last-received state `z` (the cycle is
indistinguishable from one that received `z` alone, so intermediate entries
produce no commands), and stores `z` as the new snapshot. -/
theorem vehicle_queue_coalescing (s : AppState) (q : List VehicleState)
    (z : VehicleState) (hlen : q.length ≤ 5) (hlast : q.getLast? = some z) :
    processVehicle s q = processVehicle s [z] ∧
    (processVehicle s q).1.vehicleState = z ∧
    (processVehicle s q).2.1 = [] := by
  have hd : drainVehicle q = some z := by
    rw [drainVehicle_eq_getLast?]; exact hlast
  refine ⟨?_, ?_, ?_⟩ <;> simp [processVehicle, hd, drainVehicle]

/-- Witness for C2: queueing [vsNCT, vsNLT, vsBLT] behaves exactly like
receiving vsBLT alone, leaves the queue empty and stores vsBLT. -/
theorem vehicle_queue_coalescing_witness :
    ([vsNCT, vsNLT, vsBLT] : List VehicleState).length ≤ 5 ∧
    [vsNCT, vsNLT, vsBLT].getLast? = some vsBLT ∧
    processVehicle (appRun vsNCT) [vsNCT, vsNLT, vsBLT] =
      processVehicle (appRun vsNCT) [vsBLT] ∧
    (processVehicle (appRun vsNCT) [vsNCT, vsNLT, vsBLT]).1.vehicleState = vsBLT ∧
    (processVehicle (appRun vsNCT) [vsNCT, vsNLT, vsBLT]).2.1 = [] := by
  have h := vehicle_queue_coalescing (appRun vsNCT) [vsNCT, vsNLT, vsBLT]
    vsBLT (by decide) (by decide)
  exact ⟨by decide, by decide, h.1, h.2.1, h.2.2⟩

/-- A sample construction function: every mode builds the full renderer. -/
def constructAlways : LightMode → Option Renderer := fun _ => some fullRenderer

/-- A sample construction function that always fails. -/
def constructNever : LightMode → Option Renderer := fun _ => none

/-- Claim C3: `setLightMode` is idempotent. Requesting the currently-active
mode is a no-op (state unchanged, no teardown, no construction, no
notification), so two consecutive calls with the same target mode perform
exactly one renderer construction and one listener notification between
them. -/
theorem setLightMode_idempotent :
    (∀ (construct : LightMode → Option Renderer) (s : AppState)
      (m : LightMode), s.lightMode = m → setLightMode construct s m = (s, [])) ∧
    (∀ (construct : LightMode → Option Renderer) (s : AppState)
      (m : LightMode) (r : Renderer), s.lightMode ≠ m → construct m = some r →
      ((setLightMode construct s m).2 ++
          (setLightMode construct (setLightMode construct s m).1 m).2).countP
        isConstructionEvent = 1 ∧
      ((setLightMode construct s m).2 ++
          (setLightMode construct (setLightMode construct s m).1 m).2).countP
        isNotifyEvent = 1) := by
  constructor
  · intro construct s m h
    exact setLightMode_noop construct s m h
  · intro construct s m r h hc
    rw [setLightMode_changes construct s m h]
    rw [setLightMode_noop construct _ m rfl]
    cases hh : s.renderHostHandle <;> cases hr : s.renderer <;>
      simp [hc, isConstructionEvent, isNotifyEvent, List.countP_cons,
        List.countP_append]

/-- Witness for C3 at concrete inputs: the no-op case at the current mode,
and the one-construction / one-notification count across two consecutive
calls switching to RainbowMode. -/
theorem setLightMode_idempotent_witness :
    setLightMode constructAlways (appRun vsNCT) .RunningMode =
      (appRun vsNCT, []) ∧
    ((setLightMode constructAlways (appRun vsNCT) .RainbowMode).2 ++
        (setLightMode constructAlways
          (setLightMode constructAlways (appRun vsNCT) .RainbowMode).1
          .RainbowMode).2).countP isConstructionEvent = 1 ∧
    ((setLightMode constructAlways (appRun vsNCT) .RainbowMode).2 ++
        (setLightMode constructAlways
          (setLightMode constructAlways (appRun vsNCT) .RainbowMode).1
          .RainbowMode).2).countP isNotifyEvent = 1 := by
  refine ⟨setLightMode_idempotent.1 constructAlways (appRun vsNCT)
    .RunningMode rfl, ?_, ?_⟩
  · exact (setLightMode_idempotent.2 constructAlways (appRun vsNCT)
      .RainbowMode fullRenderer (by decide) rfl).1
  · exact (setLightMode_idempotent.2 constructAlways (appRun vsNCT)
      .RainbowMode fullRenderer (by decide) rfl).2

/-- Claim C4: on a mode change to a different mode with a running render
host task and successful construction, the event trace is exactly: task
deletion, then the old renderer's shutdown, then (strictly after both) the
new renderer's construction, then the spawn of the new render host task,
then the `lightMode` store, then one listener fan-out carrying the
all-NoCommand bundle; the resulting state holds the new mode and the new
renderer. -/
theorem mode_change_teardown_precedes_construction
    (construct : LightMode → Option Renderer) (s : AppState) (m : LightMode)
    (r0 r1 : Renderer) (hm : s.lightMode ≠ m)
    (hh : s.renderHostHandle = true) (hr : s.renderer = some r0)
    (hc : construct m = some r1) :
    setLightMode construct s m =
      ({ lightMode := m, vehicleState := s.vehicleState,
         renderer := some r1, renderHostHandle := true },
       [.taskDeleted, .rendererShutdown, .rendererConstructed m,
        .taskSpawned, .modeSet m,
        .notify ⟨m, .NoCommand, .NoCommand, .NoCommand⟩]) := by
  rw [setLightMode_changes construct s m hm]
  simp [hh, hr, hc]

/-- Witness for C4: switching the running-mode state to TheaterChaseMode
produces exactly the teardown-construct-spawn-store-notify trace. -/
theorem mode_change_teardown_precedes_construction_witness :
    setLightMode constructAlways (appRun vsNCT) .TheaterChaseMode =
      ({ lightMode := .TheaterChaseMode, vehicleState := vsNCT,
         renderer := some fullRenderer, renderHostHandle := true },
       [.taskDeleted, .rendererShutdown,
        .rendererConstructed .TheaterChaseMode, .taskSpawned,
        .modeSet .TheaterChaseMode,
        .notify ⟨.TheaterChaseMode, .NoCommand, .NoCommand, .NoCommand⟩]) :=
  mode_change_teardown_precedes_construction constructAlways (appRun vsNCT)
    .TheaterChaseMode fullRenderer fullRenderer (by decide) rfl rfl rfl

/-- Claim C9: if construction of the new renderer fails during a mode
change, the resulting state holds no renderer at all (in particular no
reference to the old, torn-down one) and no construction event occurs;
subsequent vehicle-state commands are dropped entirely while the renderer
handle is absent; the next successful mode change installs a renderer
again. -/
theorem construction_failure_no_stale_renderer
    (construct : LightMode → Option Renderer) (s : AppState) (m : LightMode)
    (hm : s.lightMode ≠ m) (hc : construct m = none) :
    (setLightMode construct s m).1.renderer = none ∧
    (setLightMode construct s m).2.countP isConstructionEvent = 0 ∧
    (∀ a, onAccelerationStateChanged (setLightMode construct s m).1 a = []) ∧
    (∀ t, onTurnStateChanged (setLightMode construct s m).1 t = []) ∧
    (∀ o, onOrientationChanged (setLightMode construct s m).1 o = []) ∧
    (∀ (construct2 : LightMode → Option Renderer) (m2 : LightMode)
      (r2 : Renderer), m2 ≠ m → construct2 m2 = some r2 →
      (setLightMode construct2 (setLightMode construct s m).1 m2).1.renderer
        = some r2) := by
  rw [setLightMode_changes construct s m hm]
  refine ⟨by simp [hc], ?_, ?_, ?_, ?_, ?_⟩
  · cases hh : s.renderHostHandle <;> cases hr : s.renderer <;>
      simp [hc, isConstructionEvent, List.countP_cons, List.countP_append]
  · intro a
    simp [onAccelerationStateChanged, hc]
  · intro t
    simp [onTurnStateChanged, hc]
  · intro o
    simp [onOrientationChanged, hc]
  · intro construct2 m2 r2 hm2 hc2
    rw [setLightMode_changes construct2 _ m2 (by simpa using hm2.symm)]
    simp [hc2]

/-- Witness for C9: failing to construct a LightningMode renderer leaves no
renderer referenced, drops all three vehicle-state handler outputs, and a
following successful switch to RainbowMode installs the new renderer. -/
theorem construction_failure_no_stale_renderer_witness :
    (setLightMode constructNever (appRun vsNCT) .LightningMode).1.renderer
      = none ∧
    (setLightMode constructNever (appRun vsNCT) .LightningMode).2.countP
      isConstructionEvent = 0 ∧
    onAccelerationStateChanged
      (setLightMode constructNever (appRun vsNCT) .LightningMode).1 .Braking
      = [] ∧
    onTurnStateChanged
      (setLightMode constructNever (appRun vsNCT) .LightningMode).1 .Left
      = [] ∧
    onOrientationChanged
      (setLightMode constructNever (appRun vsNCT) .LightningMode).1 .Other
      = [] ∧
    (setLightMode constructAlways
      (setLightMode constructNever (appRun vsNCT) .LightningMode).1
      .RainbowMode).1.renderer = some fullRenderer := by
  have h := construction_failure_no_stale_renderer constructNever
    (appRun vsNCT) .LightningMode (by decide) rfl
  exact ⟨h.1, h.2.1, h.2.2.1 .Braking, h.2.2.2.1 .Left, h.2.2.2.2.1 .Other,
    h.2.2.2.2.2 constructAlways .RainbowMode fullRenderer (by decide) rfl⟩

/-- Claim C10: with no active renderer (null renderer handle), a
vehicle-state change in acceleration, turn or orientation produces no output
at all — the handlers emit neither renderer-channel sends nor listener
notifications, and a whole processing cycle over a pending state emits no
events. -/
theorem no_renderer_suppresses_all_output (s : AppState)
    (a : AccelerationState) (t : TurnState) (o : Orientation)
    (z : VehicleState) (hr : s.renderer = none) :
    onAccelerationStateChanged s a = [] ∧
    onTurnStateChanged s t = [] ∧
    onOrientationChanged s o = [] ∧
    (processVehicle s [z]).2.2 = [] := by
  refine ⟨?_, ?_, ?_, ?_⟩ <;>
    simp [onAccelerationStateChanged, onTurnStateChanged,
      onOrientationChanged, processVehicle, drainVehicle, hr]

/-- Witness for C10 at a concrete renderer-less state. -/
theorem no_renderer_suppresses_all_output_witness :
    onAccelerationStateChanged ⟨.RunningMode, vsNCT, none, true⟩ .Braking
      = [] ∧
    onTurnStateChanged ⟨.RunningMode, vsNCT, none, true⟩ .Hazard = [] ∧
    onOrientationChanged ⟨.RunningMode, vsNCT, none, true⟩ .Other = [] ∧
    (processVehicle ⟨.RunningMode, vsNCT, none, true⟩ [vsBLT]).2.2 = [] :=
  no_renderer_suppresses_all_output ⟨.RunningMode, vsNCT, none, true⟩
    .Braking .Hazard .Other vsBLT rfl

/-- Claim C5: command emission is edge-triggered. A cycle produces output on
the brake channel only if the drained state differs from the snapshot in
acceleration or orientation, on the turn channel only if it differs in turn
or orientation, and on the headlight channel only if it differs in
orientation. Concretely, from snapshot {Braking, Left, TopSideUp} under
Running mode, receiving {Neutral, Center, TopSideUp} emits exactly the
LightsRunning brake command and the LightsTurnCenter turn command (each with
its fan-out) and then receiving {Braking, Left, TopSideUp} emits exactly
LightsBrake and LightsTurnLeft, with no orientation-triggered LightsOff on
the second transition since orientation did not change. -/
theorem edge_triggered_command_emission :
    (∀ (s : AppState) (z : VehicleState),
      s.vehicleState.acceleration = z.acceleration →
      s.vehicleState.orientation = z.orientation →
      ((processVehicle s [z]).2.2.any eventTouchesBrake) = false) ∧
    (∀ (s : AppState) (z : VehicleState),
      s.vehicleState.turn = z.turn →
      s.vehicleState.orientation = z.orientation →
      ((processVehicle s [z]).2.2.any eventTouchesTurn) = false) ∧
    (∀ (s : AppState) (z : VehicleState),
      s.vehicleState.orientation = z.orientation →
      ((processVehicle s [z]).2.2.any eventTouchesHeadlight) = false) ∧
    processVehicle (appRun vsBLT) [vsNCT] =
      (appRun vsNCT, [],
       [.queueSend .brake .LightsRunning,
        .notify ⟨.RunningMode, .LightsRunning, .NoCommand, .NoCommand⟩,
        .queueSend .turn .LightsTurnCenter,
        .notify ⟨.RunningMode, .NoCommand, .LightsTurnCenter, .NoCommand⟩]) ∧
    processVehicle (appRun vsNCT) [vsBLT] =
      (appRun vsBLT, [],
       [.queueSend .brake .LightsBrake,
        .notify ⟨.RunningMode, .LightsBrake, .NoCommand, .NoCommand⟩,
        .queueSend .turn .LightsTurnLeft,
        .notify ⟨.RunningMode, .NoCommand, .LightsTurnLeft, .NoCommand⟩]) ∧
    ((processVehicle (appRun vsNCT) [vsBLT]).2.2.any
      (eventCarries .LightsOff)) = false := by
  refine ⟨?_, ?_, ?_, by decide, by decide, by decide⟩
  · intro s z ha ho
    by_cases ht : s.vehicleState.turn = z.turn
    · simp [processVehicle, drainVehicle, ha, ho, ht]
    · rcases hr : s.renderer with _ | r
      · simp [processVehicle, drainVehicle, ha, ho, ht,
          onTurnStateChanged, hr]
      · cases hq : r.turnlightQueue <;>
          simp [processVehicle, drainVehicle, ha, ho, ht,
            onTurnStateChanged, setTurnLights, notifyLightsChanged, hr, hq,
            eventTouchesBrake]
  · intro s z ht ho
    by_cases ha : s.vehicleState.acceleration = z.acceleration
    · simp [processVehicle, drainVehicle, ha, ho, ht]
    · rcases hr : s.renderer with _ | r
      · simp [processVehicle, drainVehicle, ha, ho, ht,
          onAccelerationStateChanged, hr]
      · cases hq : r.brakelightQueue <;>
          simp [processVehicle, drainVehicle, ha, ho, ht,
            onAccelerationStateChanged, setBrakes, notifyLightsChanged, hr,
            hq, eventTouchesTurn]
  · intro s z ho
    rcases hr : s.renderer with _ | r
    · by_cases ha : s.vehicleState.acceleration = z.acceleration <;>
        by_cases ht : s.vehicleState.turn = z.turn <;>
          simp [processVehicle, drainVehicle, ha, ho, ht,
            onAccelerationStateChanged, onTurnStateChanged, hr]
    · by_cases ha : s.vehicleState.acceleration = z.acceleration <;>
        by_cases ht : s.vehicleState.turn = z.turn <;>
          cases hqb : r.brakelightQueue <;> cases hqt : r.turnlightQueue <;>
            simp [processVehicle, drainVehicle, ha, ho, ht,
              onAccelerationStateChanged, onTurnStateChanged, setBrakes,
              setTurnLights, notifyLightsChanged, hr, hqb, hqt,
              eventTouchesHeadlight]

/-- Witness for C5 at concrete inputs: a cycle whose drained state matches
the snapshot in every field emits no output on any channel. -/
theorem edge_triggered_command_emission_witness :
    ((processVehicle (appRun vsNCT) [vsNCT]).2.2.any eventTouchesBrake)
      = false ∧
    ((processVehicle (appRun vsNCT) [vsNCT]).2.2.any eventTouchesTurn)
      = false ∧
    ((processVehicle (appRun vsNCT) [vsNCT]).2.2.any eventTouchesHeadlight)
      = false :=
  ⟨edge_triggered_command_emission.1 (appRun vsNCT) vsNCT rfl rfl,
   edge_triggered_command_emission.2.1 (appRun vsNCT) vsNCT rfl rfl,
   edge_triggered_command_emission.2.2.1 (appRun vsNCT) vsNCT rfl⟩

end FirmwareAmp
